import Mathlib

/-!
Shallow embedding of the Titanic question-answering backend
(`backend/data_analyzer.py`, `backend/agent.py`, `backend/main.py`) and
verification of the specification claims about it.

Modelling conventions:
* pandas rows become `Passenger` records; the global DataFrame becomes a
  `Dataset := List Passenger`.  A failed load leaves the code with
  `pd.DataFrame()` — an empty, column-less frame — which we model as `[]`;
  column access / `groupby` on that frame raises `KeyError`, which we model
  with `Except.error`.
* Python floats become `ℚ` (exact arithmetic); `NaN` results (e.g. the mean
  of an empty series) become `Option.none`.
* Python exceptions become `Except.error` with a short message naming the
  Python exception.
* f-string answer sentences are modelled by constructors carrying the live
  numeric parameters that the template interpolates (the surrounding English
  is presentation only).
-/

/- ## String utilities (Python `str.lower`, `in`, `str.strip`) -/

/-- Python `needle in hay` prefix step: does `hay` start with `needle`? -/
def leadsWith : List Char → List Char → Bool
  | [], _ => true
  | _ :: _, [] => false
  | a :: as, b :: bs => a == b && leadsWith as bs

/-- Python substring test `needle in hay` over character lists. -/
def listContainsSub (needle : List Char) : List Char → Bool
  | [] => leadsWith needle []
  | c :: t => leadsWith needle (c :: t) || listContainsSub needle t

/-- Python `s.lower()` (ASCII-adequate: the keyword sets are all ASCII). -/
def strLower (s : String) : String := String.mk (s.data.map Char.toLower)

/-- Python `kw in hay` on strings. -/
def pyContains (hay kw : String) : Bool := listContainsSub kw.data hay.data

/-- Python `any(word in hay for word in kws)`. -/
def containsAny (hay : String) (kws : List String) : Bool :=
  kws.any (fun kw => pyContains hay kw)

/-- Python whitespace characters recognised by `str.strip()`. -/
def pyIsSpace (c : Char) : Bool :=
  c == ' ' || c == '\t' || c == '\n' || c == '\r' || c == '\x0b' || c == '\x0c'

/-- Python `s.strip()`. -/
def pyStrip (s : String) : String :=
  String.mk (((s.data.dropWhile pyIsSpace).reverse.dropWhile pyIsSpace).reverse)

/- ## Data model (spec section 3, `download_data.load_titanic_data` schema) -/

/-- Passenger sex, an enum per the data model (`Sex` column). -/
inductive Sex where
  | male
  | female
deriving DecidableEq, Repr

/-- One row of the passenger table. `age` and `embarked` may be missing
(pandas `NaN`); `embarked` is kept as the raw port code string because
`get_embarkation_stats` passes unmapped codes through. -/
structure Passenger where
  survived : Bool
  sex : Sex
  pclass : Nat
  age : Option ℚ
  fare : ℚ
  embarked : Option String
deriving DecidableEq, Repr

/-- The in-memory table (`self.df`). `[]` models the empty, column-less
`pd.DataFrame()` left behind when the load fails. -/
abbrev Dataset := List Passenger

/- ## Small numeric / list helpers shared by the statistics functions -/

/-- Count of survivors in a row list (`series.sum()` over the 0/1 column). -/
def survivorsCount (l : List Passenger) : Nat :=
  (l.filter (fun p => p.survived)).length

/-- Non-missing ages in row order (`df[Age].dropna()`). -/
def knownAges (d : Dataset) : List ℚ := d.filterMap (fun p => p.age)

/-- Non-missing embarkation codes in row order (what `value_counts` counts). -/
def knownEmbarked (d : Dataset) : List String := d.filterMap (fun p => p.embarked)

/-- Mean of a rational list; `none` models pandas returning `NaN` on an
empty series. -/
def meanOpt (l : List ℚ) : Option ℚ :=
  if l.isEmpty then none else some (l.sum / l.length)

/-- Mean of a rational list, `0` on empty (used only where the caller has
already ruled the empty case out). -/
def ratMean (l : List ℚ) : ℚ := l.sum / l.length

/-- Round half to even to an integer, the tie rule used by numpy/pandas
`round` (our exact-rational idealisation of the float operation; binary
floating point can differ on values that are not exactly representable). -/
def roundHalfEven (x : ℚ) : ℤ :=
  let f := ⌊x⌋
  let frac := x - f
  if frac < 1/2 then f
  else if frac > 1/2 then f + 1
  else if f % 2 = 0 then f else f + 1

/-- pandas `.round(3)`, as applied to the `groupby(...).agg(...)` means. -/
def rnd3 (x : ℚ) : ℚ := (roundHalfEven (x * 1000) : ℚ) / 1000

/-- Fuel-bounded body of `firstDedup` (structural recursion on the fuel so
the kernel can evaluate it; the fuel never runs out when it starts at the
list length). -/
def firstDedupAux [DecidableEq α] : Nat → List α → List α
  | _, [] => []
  | 0, _ :: _ => []
  | n + 1, x :: xs => x :: firstDedupAux n (xs.filter (fun y => y ≠ x))

/-- First-occurrence deduplication, modelling the distinct keys a pandas
`groupby` / `value_counts` produces. -/
def firstDedup [DecidableEq α] (l : List α) : List α := firstDedupAux l.length l

/-- Ordered insert for insertion sort. -/
def insertLe (le : α → α → Bool) (a : α) : List α → List α
  | [] => [a]
  | b :: t => if le a b then a :: b :: t else b :: insertLe le a t

/-- Insertion sort (kernel-reducible stand-in for Python `sorted` /
pandas sorting; the claims never observe tie order). -/
def insSort (le : α → α → Bool) : List α → List α
  | [] => []
  | a :: t => insertLe le a (insSort le t)

/-- `sorted(self.df[Pclass].unique().tolist())`. -/
def sortedClasses (d : Dataset) : List Nat :=
  insSort (fun a b => a ≤ b) (firstDedup (d.map (fun p => p.pclass)))

/- ## Statistics Engine (`data_analyzer.TitanicAnalyzer`) -/

/-- Fields of the `get_basic_stats` dict. `average_age` is the mean over
non-missing ages (pandas skips `NaN`), `none` when no age is known. -/
structure BasicStats where
  total_passengers : Nat
  survivors : Nat
  survival_rate : ℚ
  male_passengers : Nat
  female_passengers : Nat
  male_percentage : ℚ
  average_age : Option ℚ
  average_fare : ℚ
  classes : List Nat
deriving DecidableEq, Repr

/-- Result of `get_basic_stats`: either the explicit unavailable dict
`{error: Dataset not loaded}` or the statistics record. -/
inductive BasicStatsResult where
  | unavailable
  | stats (s : BasicStats)
deriving DecidableEq, Repr

/-- `TitanicAnalyzer.get_basic_stats` (data_analyzer.py lines 31-46). -/
def get_basic_stats (d : Dataset) : BasicStatsResult :=
  if d.isEmpty then .unavailable
  else .stats {
    total_passengers := d.length
    survivors := survivorsCount d
    survival_rate := (survivorsCount d : ℚ) / (d.length : ℚ) * 100
    male_passengers := (d.filter (fun p => p.sex == Sex.male)).length
    female_passengers := (d.filter (fun p => p.sex == Sex.female)).length
    male_percentage := ((d.filter (fun p => p.sex == Sex.male)).length : ℚ) / (d.length : ℚ) * 100
    average_age := meanOpt (knownAges d)
    average_fare := ratMean (d.map (fun p => p.fare))
    classes := sortedClasses d
  }

/-- Fields of the `get_survival_by_gender` dict; the rates carry the
`.round(3)` that the source applies to the grouped means before `* 100`. -/
structure GenderStats where
  male_survival_rate : ℚ
  female_survival_rate : ℚ
  male_survivors : Nat
  female_survivors : Nat
  total_male : Nat
  total_female : Nat
deriving DecidableEq, Repr

/-- `TitanicAnalyzer.get_survival_by_gender` (data_analyzer.py lines 48-58).
On the empty (column-less) frame `groupby(Sex)` raises; with a sex absent
the `.loc` lookups raise `KeyError` in source order (male first). -/
def get_survival_by_gender (d : Dataset) : Except String GenderStats :=
  if d.isEmpty then .error "KeyError: Sex"
  else
    let males := d.filter (fun p => p.sex == Sex.male)
    let females := d.filter (fun p => p.sex == Sex.female)
    if males.isEmpty then .error "KeyError: male"
    else if females.isEmpty then .error "KeyError: female"
    else .ok {
      male_survival_rate := rnd3 ((survivorsCount males : ℚ) / (males.length : ℚ)) * 100
      female_survival_rate := rnd3 ((survivorsCount females : ℚ) / (females.length : ℚ)) * 100
      male_survivors := survivorsCount males
      female_survivors := survivorsCount females
      total_male := males.length
      total_female := females.length
    }

/-- Per-class entry of the `get_survival_by_class` result. -/
structure ClassStats where
  survival_rate : ℚ
  survivors : Nat
  total : Nat
deriving DecidableEq, Repr

/-- `TitanicAnalyzer.get_survival_by_class` (data_analyzer.py lines 60-70):
one `class_{pclass}` entry per distinct class, in ascending class order. -/
def get_survival_by_class (d : Dataset) : Except String (List (Nat × ClassStats)) :=
  if d.isEmpty then .error "KeyError: Pclass"
  else .ok ((sortedClasses d).map (fun c =>
    let grp := d.filter (fun p => p.pclass == c)
    (c, { survival_rate := rnd3 ((survivorsCount grp : ℚ) / (grp.length : ℚ)) * 100
          survivors := survivorsCount grp
          total := grp.length })))

/-- Fields of the `get_age_statistics` dict.  The statistical summaries are
`none` where pandas yields `NaN` (no known age; fewer than two ages for the
deviation).  The source exposes the sample standard deviation; its square
root is a real-number operation, so the model carries the sample variance
`age_var` (the squared `age_std`), which determines it. -/
structure AgeStats where
  average_age : Option ℚ
  median_age : Option ℚ
  min_age : Option ℚ
  max_age : Option ℚ
  age_var : Option ℚ
  children_0_12 : Nat
  teens_13_19 : Nat
  adults_20_59 : Nat
  seniors_60_plus : Nat
deriving DecidableEq, Repr

/-- pandas `series.median()`: middle element of the sorted values, or the
mean of the two middle elements; `NaN` on empty. -/
def medianOpt (l : List ℚ) : Option ℚ :=
  let s := insSort (fun a b => a ≤ b) l
  let n := s.length
  if n = 0 then none
  else if n % 2 = 1 then s.get? (n / 2)
  else match s.get? (n / 2 - 1), s.get? (n / 2) with
    | some a, some b => some ((a + b) / 2)
    | _, _ => none

/-- pandas `series.std()` squared: sample variance with `ddof = 1`,
`NaN` when fewer than two values. -/
def sampleVarOpt (l : List ℚ) : Option ℚ :=
  if l.length ≤ 1 then none
  else
    let μ := ratMean l
    some ((l.map (fun a => (a - μ) * (a - μ))).sum / ((l.length : ℚ) - 1))

/-- `TitanicAnalyzer.get_age_statistics` (data_analyzer.py lines 72-87).
On the empty column-less frame `df[Age]` raises `KeyError`. -/
def get_age_statistics (d : Dataset) : Except String AgeStats :=
  if d.isEmpty then .error "KeyError: Age"
  else
    let ages := knownAges d
    .ok {
      average_age := meanOpt ages
      median_age := medianOpt ages
      min_age := ages.min?
      max_age := ages.max?
      age_var := sampleVarOpt ages
      children_0_12 := (ages.filter (fun a => a ≤ 12)).length
      teens_13_19 := (ages.filter (fun a => 12 < a ∧ a ≤ 19)).length
      adults_20_59 := (ages.filter (fun a => 19 < a ∧ a ≤ 59)).length
      seniors_60_plus := (ages.filter (fun a => 59 < a)).length
    }

/-- `embark_mapping.get(port_code, str(port_code))`. -/
def embarkName (c : String) : String :=
  if c = "C" then "Cherbourg"
  else if c = "Q" then "Queenstown"
  else if c = "S" then "Southampton"
  else c

/-- Per-port entry of the `get_embarkation_stats` result. -/
structure EmbStat where
  count : Nat
  percentage : ℚ
deriving DecidableEq, Repr

/-- `TitanicAnalyzer.get_embarkation_stats` (data_analyzer.py lines 89-101):
`value_counts` counts the non-missing codes and lists them by descending
count; every percentage divides by the full row count `len(self.df)`.  On
the empty column-less frame `df[Embarked]` raises `KeyError`. -/
def get_embarkation_stats (d : Dataset) : Except String (List (String × EmbStat)) :=
  if d.isEmpty then .error "KeyError: Embarked"
  else
    let codes := knownEmbarked d
    let counted := (firstDedup codes).map
      (fun c => (c, (codes.filter (fun x => x == c)).length))
    let ordered := insSort (fun a b => b.2 ≤ a.2) counted
    .ok (ordered.map (fun p =>
      (embarkName p.1, { count := p.2, percentage := (p.2 : ℚ) / (d.length : ℚ) * 100 })))

/- ## Chart rendering and chart selection (`agent.TitanicAgent`) -/

/-- Rendered chart handle: the `fig.to_html(...)` output, abstracted to the
renderer identity plus the statistics the figure is built from. -/
inductive ChartHtml where
  | ageHist (ages : List ℚ)
  | classChart (rates : List ℚ)
  | genderChart (femaleRate maleRate : ℚ)
deriving DecidableEq, Repr

/-- `TitanicAnalyzer.create_age_histogram_plotly` (data_analyzer.py lines
103-116): histogram over the non-missing ages; `df[Age]` raises on the
empty column-less frame. -/
def create_age_histogram_plotly (d : Dataset) : Except String ChartHtml :=
  if d.isEmpty then .error "KeyError: Age"
  else .ok (.ageHist (knownAges d))

/-- `TitanicAnalyzer.create_survival_by_class_chart` (data_analyzer.py lines
118-137): bars of `groupby(Pclass)[Survived].mean() * 100` in ascending
class order. -/
def create_survival_by_class_chart (d : Dataset) : Except String ChartHtml :=
  if d.isEmpty then .error "KeyError: Pclass"
  else .ok (.classChart ((sortedClasses d).map (fun c =>
    let grp := d.filter (fun p => p.pclass == c)
    (survivorsCount grp : ℚ) / (grp.length : ℚ) * 100)))

/-- `TitanicAnalyzer.create_gender_survival_chart` (data_analyzer.py lines
139-153): `y = [survival_data[female], survival_data[male]]`, so a missing
sex raises `KeyError` (female looked up first). -/
def create_gender_survival_chart (d : Dataset) : Except String ChartHtml :=
  if d.isEmpty then .error "KeyError: Sex"
  else
    let males := d.filter (fun p => p.sex == Sex.male)
    let females := d.filter (fun p => p.sex == Sex.female)
    if females.isEmpty then .error "KeyError: female"
    else if males.isEmpty then .error "KeyError: male"
    else .ok (.genderChart ((survivorsCount females : ℚ) / (females.length : ℚ) * 100)
                           ((survivorsCount males : ℚ) / (males.length : ℚ) * 100))

/-- `viz_keywords` from `_determine_chart_type`. -/
def vizKeywords : List String :=
  ["chart", "graph", "plot", "histogram", "show", "visualize", "display"]

/-- Second half of `_determine_chart_type` (agent.py lines 78-86): the
auto-generation rules reached when the explicit-visualization block did not
return. -/
def determine_chart_auto (d : Dataset) (ql : String) :
    Except String (Option (ChartHtml × String)) :=
  if containsAny ql ["age"] && pyContains ql "distribution" then
    (create_age_histogram_plotly d).map (fun h => some (h, "age_histogram"))
  else if pyContains ql "class" && containsAny ql ["survival", "survive"] then
    (create_survival_by_class_chart d).map (fun h => some (h, "survival_by_class"))
  else if containsAny ql ["gender", "male", "female"] && pyContains ql "survival" then
    (create_gender_survival_chart d).map (fun h => some (h, "gender_survival"))
  else .ok none

/-- `TitanicAgent._determine_chart_type` (agent.py lines 63-86).  The source
lowercases `ai_response` into `response_lower` but never reads it; the dead
binding is kept.  When a visualization keyword is present but none of the
topic checks fire, control falls through to the auto-generation rules, as in
the source (the inner `if/elif` has no `else`). -/
def determine_chart_type (d : Dataset) (question ai_response : String) :
    Except String (Option (ChartHtml × String)) :=
  let ql := strLower question
  let _response_lower := strLower ai_response
  if containsAny ql vizKeywords then
    if containsAny ql ["age"] then
      (create_age_histogram_plotly d).map (fun h => some (h, "age_histogram"))
    else if containsAny ql ["class", "survival"] then
      (create_survival_by_class_chart d).map (fun h => some (h, "survival_by_class"))
    else if containsAny ql ["gender", "male", "female"] then
      (create_gender_survival_chart d).map (fun h => some (h, "gender_survival"))
    else determine_chart_auto d ql
  else determine_chart_auto d ql

/- ## Question Router (`TitanicAnalyzer.answer_question`) -/

/-- Templated answer sentences, abstracted to the template identity plus the
live values the f-string interpolates. -/
inductive AnswerText where
  | totalPassengers (n : Nat)
  | malePercentage (total_male : Nat) (pct : ℚ)
  | genderSurvival (femaleRate maleRate : ℚ)
  | averageAge (a : Option ℚ)
  | averageFare (f : ℚ)
  | embarkList (entries : List (String × Nat))
  | classSurvival (r1 r2 r3 : ℚ)
  | defaultCapabilities
deriving DecidableEq, Repr

/-- The `data` payload attached to a router answer. -/
inductive DataPayload where
  | basic (b : BasicStatsResult)
  | gender (g : GenderStats)
  | age (a : AgeStats)
  | embark (e : List (String × EmbStat))
  | classes (c : List (Nat × ClassStats))
deriving DecidableEq, Repr

/-- The `{answer, data}` dict `answer_question` returns. -/
structure RouterResult where
  answer : AnswerText
  data : DataPayload
deriving DecidableEq, Repr

/-- Keyword set of the counts branch. -/
def countKeywords : List String := ["total", "how many", "count"]

/-- Keyword set of the gender branch. -/
def genderKeywords : List String := ["male", "female", "gender"]

/-- Keyword set of the age branch. -/
def ageKeywords : List String := ["age", "old", "young"]

/-- Keyword set of the fare branch. -/
def fareKeywords : List String := ["fare", "ticket", "price", "cost"]

/-- Keyword set of the embarkation branch. -/
def embarkKeywords : List String := ["embark", "port", "board"]

/-- Keyword set of the class branch. -/
def classKeywords : List String := ["class", "first", "second", "third"]

/-- Default branch of `answer_question` (data_analyzer.py lines 211-215). -/
def aq_default (d : Dataset) : Except String RouterResult :=
  .ok ⟨.defaultCapabilities, .basic (get_basic_stats d)⟩

/-- Class branch of `answer_question` (data_analyzer.py lines 203-209): the
answer indexes `class_1`, `class_2`, `class_3`, raising `KeyError` when a
class is absent from the grouped result. -/
def aq_class (d : Dataset) (ql : String) : Except String RouterResult :=
  if containsAny ql classKeywords then
    match get_survival_by_class d with
    | .error e => .error e
    | .ok cs =>
      match cs.lookup 1, cs.lookup 2, cs.lookup 3 with
      | some s1, some s2, some s3 =>
        .ok ⟨.classSurvival s1.survival_rate s2.survival_rate s3.survival_rate, .classes cs⟩
      | none, _, _ => .error "KeyError: class_1"
      | _, none, _ => .error "KeyError: class_2"
      | _, _, none => .error "KeyError: class_3"
  else aq_default d

/-- Embarkation branch of `answer_question` (data_analyzer.py lines
195-201). -/
def aq_embark (d : Dataset) (ql : String) : Except String RouterResult :=
  if containsAny ql embarkKeywords then
    match get_embarkation_stats d with
    | .error e => .error e
    | .ok es => .ok ⟨.embarkList (es.map (fun p => (p.1, p.2.count))), .embark es⟩
  else aq_class d ql

/-- Fare branch of `answer_question` (data_analyzer.py lines 187-193): on an
unloaded dataset `get_basic_stats` hands back the error dict and the
f-string lookup of `average_fare` raises `KeyError`. -/
def aq_fare (d : Dataset) (ql : String) : Except String RouterResult :=
  if containsAny ql fareKeywords then
    match get_basic_stats d with
    | .unavailable => .error "KeyError: average_fare"
    | .stats s => .ok ⟨.averageFare s.average_fare, .basic (.stats s)⟩
  else aq_embark d ql

/-- Age branch of `answer_question` (data_analyzer.py lines 178-185):
`get_age_statistics` runs as soon as an age keyword matches; without
`average` in the question the branch falls through. -/
def aq_age (d : Dataset) (ql : String) : Except String RouterResult :=
  if containsAny ql ageKeywords then
    match get_age_statistics d with
    | .error e => .error e
    | .ok a =>
      if pyContains ql "average" then .ok ⟨.averageAge a.average_age, .age a⟩
      else aq_fare d ql
  else aq_fare d ql

/-- Gender branch of `answer_question` (data_analyzer.py lines 164-176):
`get_survival_by_gender` runs as soon as a gender keyword matches; without
the inner `percentage`/`survival` conditions the branch falls through. -/
def aq_gender (d : Dataset) (ql : String) : Except String RouterResult :=
  if containsAny ql genderKeywords then
    match get_survival_by_gender d with
    | .error e => .error e
    | .ok gs =>
      if pyContains ql "percentage" && pyContains ql "male" then
        .ok ⟨.malePercentage gs.total_male ((gs.total_male : ℚ) / (d.length : ℚ) * 100),
             .gender gs⟩
      else if pyContains ql "survival" then
        .ok ⟨.genderSurvival gs.female_survival_rate gs.male_survival_rate, .gender gs⟩
      else aq_age d ql
  else aq_age d ql

/-- Counts branch of `answer_question` (data_analyzer.py lines 159-162): the
branch answers only when both a counts keyword and `passenger` occur. -/
def aq_counts (d : Dataset) (ql : String) : Except String RouterResult :=
  if containsAny ql countKeywords && pyContains ql "passenger" then
    .ok ⟨.totalPassengers d.length, .basic (get_basic_stats d)⟩
  else aq_gender d ql

/-- `TitanicAnalyzer.answer_question` (data_analyzer.py lines 155-215). -/
def answer_question (d : Dataset) (question : String) : Except String RouterResult :=
  aq_counts d (strLower question)

/- ## AI Escalation Layer (`agent.TitanicAgent.process_query` and friends) -/

/-- The `answer` field of a processed query: free AI text on the AI path,
a router template on the deterministic path. -/
inductive QAnswer where
  | ai (text : String)
  | routed (a : AnswerText)
deriving DecidableEq, Repr

/-- The `data` field of a processed query: the merged `context_data` pieces
on the AI path, the single router payload on the deterministic path. -/
inductive QData where
  | ctxData (pieces : List DataPayload)
  | routedData (p : DataPayload)
deriving DecidableEq, Repr

/-- The dict `process_query` returns:
`{answer, data, chart_html, chart_type}`, with the two chart fields carried
as the single optional pair the chart selector produces. -/
structure QueryResult where
  answer : QAnswer
  data : QData
  chart : Option (ChartHtml × String)
deriving DecidableEq, Repr

/-- The hosted LLM call (`self.llm.invoke`), abstracted to a function from
the question to either the response text or a raised error (network error,
malformed response, quota/auth error, timeout). -/
abbrev LlmCall := String → Except String String

/-- Context gathering of `_process_with_ai` (agent.py lines 100-115): the
topic-relevant statistics merged into `context_data`, each lookup raising as
its statistics function raises.  `get_basic_stats` is always appended last
(its unavailable dict merges without raising). -/
def gatherContext (d : Dataset) (ql : String) : Except String (List DataPayload) := do
  let mut ctx : List DataPayload := []
  if containsAny ql ["gender", "male", "female"] then
    ctx := ctx ++ [.gender (← get_survival_by_gender d)]
  if containsAny ql ["class", "first", "second", "third"] then
    ctx := ctx ++ [.classes (← get_survival_by_class d)]
  if containsAny ql ["age", "old", "young"] then
    ctx := ctx ++ [.age (← get_age_statistics d)]
  if containsAny ql ["embark", "port"] then
    ctx := ctx ++ [.embark (← get_embarkation_stats d)]
  return ctx ++ [.basic (get_basic_stats d)]

/-- Body of the `try` block of `_process_with_ai` (agent.py lines 98-151):
gather context, invoke the hosted model, then run the chart selector on the
question and the AI answer. -/
def aiTryBody (d : Dataset) (llm : LlmCall) (question : String) :
    Except String QueryResult := do
  let ctx ← gatherContext d (strLower question)
  let answer_text ← llm question
  let chart ← determine_chart_type d question answer_text
  return { answer := .ai answer_text, data := .ctxData ctx, chart := chart }

/-- `TitanicAgent._process_without_ai` (agent.py lines 158-171): the
deterministic path; the chart selector runs with the default empty
`ai_response`. -/
def process_without_ai (d : Dataset) (question : String) : Except String QueryResult := do
  let response ← answer_question d question
  let chart ← determine_chart_type d question ""
  return { answer := .routed response.answer, data := .routedData response.data, chart := chart }

/-- `TitanicAgent._process_with_ai` (agent.py lines 96-156): any exception in
the `try` body is caught and answered by `_process_without_ai` — whose own
exceptions, raised inside the `except` handler, propagate to the caller. -/
def process_with_ai (d : Dataset) (llm : LlmCall) (question : String) :
    Except String QueryResult :=
  match aiTryBody d llm question with
  | .ok r => .ok r
  | .error _ => process_without_ai d question

/-- `TitanicAgent.process_query` (agent.py lines 88-94): `use_ai` reflects
whether a credential configured an LLM at startup. -/
def process_query (d : Dataset) (use_ai : Bool) (llm : LlmCall) (question : String) :
    Except String QueryResult :=
  if use_ai then process_with_ai d llm question
  else process_without_ai d question

/- ## FastAPI `/chat` endpoint (`main.chat`, main.py lines 52-70) -/

/-- Exceptions that can surface inside the endpoint `try` block: the
explicitly raised `HTTPException` or any other exception (from the agent). -/
inductive PyErr where
  | httpExc (status : Nat) (detail : String)
  | exc (msg : String)
deriving DecidableEq, Repr

/-- Python `str(e)` for the exceptions above (`HTTPException.__str__` is
`{status_code}: {detail}`). -/
def pyErrStr : PyErr → String
  | .httpExc status detail => toString status ++ ": " ++ detail
  | .exc msg => msg

/-- `main.chat` (main.py lines 52-70), parameterised over the agent so that
downstream-call behaviour is expressible.  Inside the `try`: an
empty-after-strip question raises `HTTPException(400)`; otherwise the agent
runs and its result is copied field-for-field into the `ChatResponse`.  The
`except Exception` clause catches every exception — including the
`HTTPException(400)`, which is an `Exception` subclass — and re-raises it as
`HTTPException(500, "Error processing question: " + str(e))`. -/
def chat (agent : String → Except String QueryResult) (question : String) :
    Except (Nat × String) QueryResult :=
  let body : Except PyErr QueryResult :=
    if (pyStrip question).data.isEmpty then
      .error (.httpExc 400 "Question cannot be empty")
    else
      match agent question with
      | .error m => .error (.exc m)
      | .ok r => .ok r
  match body with
  | .ok r => .ok r
  | .error e => .error (500, "Error processing question: " ++ pyErrStr e)

/- ## Spec-side definitions (written from the specification text, for the
refinement claims) -/

/-- Level-2 chart selection exactly as claim C8 words it: a topic keyword
combined with an intent word, the intent pairs being age+distribution,
class+survival, gender+survival, tried in that order. -/
def selectChartAutoClaim (ql : String) : Option String :=
  if containsAny ql ["age"] && pyContains ql "distribution" then some "age_histogram"
  else if pyContains ql "class" && pyContains ql "survival" then some "survival_by_class"
  else if containsAny ql ["gender", "male", "female"] && pyContains ql "survival" then
    some "gender_survival"
  else none

/-- Level-2 chart selection as amended: the class intent word may be
`survival` or `survive`. -/
def selectChartAuto (ql : String) : Option String :=
  if containsAny ql ["age"] && pyContains ql "distribution" then some "age_histogram"
  else if pyContains ql "class" && containsAny ql ["survival", "survive"] then
    some "survival_by_class"
  else if containsAny ql ["gender", "male", "female"] && pyContains ql "survival" then
    some "gender_survival"
  else none

/-- Chart selector as claim C8 words it: level 1 emits a kind only when a
visualization verb and a topic keyword are both present; otherwise level 2
pairs a topic keyword with an intent word, taking the claim parenthetical
(age+distribution, class+survival, gender+survival) as the intent list;
at each level age is tried before class/survival before gender. -/
def selectChartKindClaim (question : String) : Option String :=
  let ql := strLower question
  if containsAny ql vizKeywords &&
      (containsAny ql ["age"] || containsAny ql ["class", "survival"] ||
       containsAny ql ["gender", "male", "female"]) then
    if containsAny ql ["age"] then some "age_histogram"
    else if containsAny ql ["class", "survival"] then some "survival_by_class"
    else some "gender_survival"
  else selectChartAutoClaim ql

/-- Chart selector as amended: identical to `selectChartKindClaim` except
that the level-2 class intent word may be `survival` or `survive`. -/
def selectChartKindAmended (question : String) : Option String :=
  let ql := strLower question
  if containsAny ql vizKeywords &&
      (containsAny ql ["age"] || containsAny ql ["class", "survival"] ||
       containsAny ql ["gender", "male", "female"]) then
    if containsAny ql ["age"] then some "age_histogram"
    else if containsAny ql ["class", "survival"] then some "survival_by_class"
    else some "gender_survival"
  else selectChartAuto ql

/-- Router guard of the counts topic, as amended for claim C7: the branch
fires only when a counts keyword and `passenger` both occur. -/
def countsGuard (ql : String) : Bool :=
  containsAny ql countKeywords && pyContains ql "passenger"

/-- Router guard of the gender topic, as amended: a gender keyword plus
either (`percentage` and `male`) or `survival`. -/
def genderGuard (ql : String) : Bool :=
  containsAny ql genderKeywords &&
    (pyContains ql "percentage" && pyContains ql "male" || pyContains ql "survival")

/-- Router guard of the age topic, as amended: an age keyword plus
`average`. -/
def ageGuard (ql : String) : Bool :=
  containsAny ql ageKeywords && pyContains ql "average"

/-- The Question Router as the amended claim C7 describes it: an ordered
guard/handler table evaluated in the precedence counts → gender → age →
fare → embarkation → class → default, each handler composing its answer
from the live statistics, the default handler returning the capability
description plus `basic_stats`. -/
def routerSpec (d : Dataset) (question : String) : Except String RouterResult :=
  let ql := strLower question
  if countsGuard ql then
    .ok ⟨.totalPassengers d.length, .basic (get_basic_stats d)⟩
  else if genderGuard ql then
    match get_survival_by_gender d with
    | .error e => .error e
    | .ok gs =>
      if pyContains ql "percentage" && pyContains ql "male" then
        .ok ⟨.malePercentage gs.total_male ((gs.total_male : ℚ) / (d.length : ℚ) * 100),
             .gender gs⟩
      else
        .ok ⟨.genderSurvival gs.female_survival_rate gs.male_survival_rate, .gender gs⟩
  else if ageGuard ql then
    match get_age_statistics d with
    | .error e => .error e
    | .ok a => .ok ⟨.averageAge a.average_age, .age a⟩
  else if containsAny ql fareKeywords then
    match get_basic_stats d with
    | .unavailable => .error "KeyError: average_fare"
    | .stats s => .ok ⟨.averageFare s.average_fare, .basic (.stats s)⟩
  else if containsAny ql embarkKeywords then
    match get_embarkation_stats d with
    | .error e => .error e
    | .ok es => .ok ⟨.embarkList (es.map (fun p => (p.1, p.2.count))), .embark es⟩
  else if containsAny ql classKeywords then
    match get_survival_by_class d with
    | .error e => .error e
    | .ok cs =>
      match cs.lookup 1, cs.lookup 2, cs.lookup 3 with
      | some s1, some s2, some s3 =>
        .ok ⟨.classSurvival s1.survival_rate s2.survival_rate s3.survival_rate, .classes cs⟩
      | none, _, _ => .error "KeyError: class_1"
      | _, none, _ => .error "KeyError: class_2"
      | _, _, none => .error "KeyError: class_3"
  else
    .ok ⟨.defaultCapabilities, .basic (get_basic_stats d)⟩

/-- First topic whose keyword set matches the lower-cased question, in the
precedence order claim C7 states. -/
def firstMatchingTopic (question : String) : Option String :=
  let ql := strLower question
  if containsAny ql countKeywords then some "counts"
  else if containsAny ql genderKeywords then some "gender"
  else if containsAny ql ageKeywords then some "age"
  else if containsAny ql fareKeywords then some "fare"
  else if containsAny ql embarkKeywords then some "embarkation"
  else if containsAny ql classKeywords then some "class"
  else none

/-- Number of known ages that fall in the four ranges claim C4 states:
[0,12], (12,19], (19,59], (60,∞). -/
def specAgeBucketSum (d : Dataset) : Nat :=
  ((knownAges d).filter (fun a => 0 ≤ a ∧ a ≤ 12)).length +
  ((knownAges d).filter (fun a => 12 < a ∧ a ≤ 19)).length +
  ((knownAges d).filter (fun a => 19 < a ∧ a ≤ 59)).length +
  ((knownAges d).filter (fun a => 60 < a)).length

/-- Sum of the four age-bucket counts of a `get_age_statistics` result. -/
def ageBucketSum (s : AgeStats) : Nat :=
  s.children_0_12 + s.teens_13_19 + s.adults_20_59 + s.seniors_60_plus

/- ## Concrete datasets and stub agents used by witnesses and
counterexamples -/

/-- Well-formed four-row dataset: both sexes, classes 1-3 all present, one
missing age and one missing embarkation code. -/
def dWitness : Dataset :=
  [ { survived := true,  sex := .male,   pclass := 1, age := some 30, fare := 100,
      embarked := some "S" },
    { survived := false, sex := .female, pclass := 2, age := some 8,  fare := 20,
      embarked := some "C" },
    { survived := true,  sex := .female, pclass := 3, age := none,    fare := 7,
      embarked := none },
    { survived := false, sex := .male,   pclass := 3, age := some 60, fare := 7,
      embarked := some "Q" } ]

/-- Single passenger with missing age and missing embarkation code. -/
def dMissing : Dataset :=
  [ { survived := true, sex := .male, pclass := 1, age := none, fare := 5,
      embarked := none } ]

/-- Single passenger aged exactly 60. -/
def dSixty : Dataset :=
  [ { survived := false, sex := .male, pclass := 1, age := some 60, fare := 10,
      embarked := some "S" } ]

/-- Single class-1 passenger (classes 2 and 3 absent). -/
def dOneClass : Dataset :=
  [ { survived := true, sex := .male, pclass := 1, age := some 40, fare := 50,
      embarked := some "S" } ]

/-- Hosted call that always fails (e.g. a timeout). -/
def llmFail : LlmCall := fun _ => .error "timeout"

/- ## Helper lemmas -/

/-- `firstDedupAux` ignores the exact fuel once it covers the list
length. -/
theorem firstDedupAux_of_le [DecidableEq α] :
    ∀ (n m : Nat) (l : List α), l.length ≤ n → l.length ≤ m →
      firstDedupAux n l = firstDedupAux m l
  | n, m, [], _, _ => by cases n <;> cases m <;> rfl
  | 0, _, _ :: _, hn, _ => absurd hn (by simp)
  | _ + 1, 0, _ :: _, _, hm => absurd hm (by simp)
  | n + 1, m + 1, x :: xs, hn, hm => by
    simp only [firstDedupAux]
    congr 1
    have hxn : xs.length ≤ n := by simpa using hn
    have hxm : xs.length ≤ m := by simpa using hm
    exact firstDedupAux_of_le n m _
      (le_trans (List.length_filter_le _ _) hxn)
      (le_trans (List.length_filter_le _ _) hxm)

/-- Unfolding equation of `firstDedup` on a cons cell. -/
theorem firstDedup_cons [DecidableEq α] (x : α) (xs : List α) :
    firstDedup (x :: xs) = x :: firstDedup (xs.filter (fun y => y ≠ x)) := by
  show firstDedupAux (x :: xs).length (x :: xs) = _
  simp only [List.length_cons, firstDedupAux]
  congr 1
  exact firstDedupAux_of_le xs.length (xs.filter (fun y => y ≠ x)).length _
    (List.length_filter_le _ _) le_rfl

/-- `insertLe` permutes to consing. -/
theorem insertLe_perm (le : α → α → Bool) (a : α) (l : List α) :
    (insertLe le a l).Perm (a :: l) := by
  induction l with
  | nil => simp [insertLe]
  | cons b t ih =>
    rw [insertLe]
    by_cases h : le a b
    · simp [h]
    · simp only [h, if_false]
      exact ((ih.cons b).trans (List.Perm.swap a b t))

/-- `insSort` permutes its input. -/
theorem insSort_perm (le : α → α → Bool) (l : List α) : (insSort le l).Perm l := by
  induction l with
  | nil => simp [insSort]
  | cons a t ih =>
    rw [insSort]
    exact (insertLe_perm le a (insSort le t)).trans (ih.cons a)

/-- Members of `firstDedup l` are members of `l`. -/
theorem mem_firstDedup [DecidableEq α] {a : α} :
    (l : List α) → a ∈ firstDedup l → a ∈ l
  | [], h => by simp [firstDedup, firstDedupAux] at h
  | x :: xs, h => by
    rw [firstDedup_cons] at h
    rcases List.mem_cons.mp h with h | h
    · exact h ▸ List.mem_cons_self x xs
    · exact List.mem_cons_of_mem _ (List.mem_of_mem_filter (mem_firstDedup _ h))
termination_by l => l.length
decreasing_by
  simp only [List.length_cons]
  exact Nat.lt_succ_of_le (List.length_filter_le _ _)

/-- A Bool-predicate filter and its complement partition a list. -/
theorem length_filter_add_length_filter_neg (p : α → Bool) (l : List α) :
    (l.filter p).length + (l.filter (fun a => !p a)).length = l.length := by
  induction l with
  | nil => simp
  | cons a t ih => by_cases h : p a <;> simp [List.filter_cons, h] <;> omega

/-- The per-value counts over the distinct values of a list sum to its
length: the grouped counts of a pandas `groupby`/`value_counts` partition
the rows. -/
theorem sum_countP_firstDedup [DecidableEq α] :
    (l : List α) →
      ((firstDedup l).map (fun v => l.countP (fun x => x = v))).sum = l.length
  | [] => by simp [firstDedup, firstDedupAux]
  | x :: xs => by
    have key := sum_countP_firstDedup (xs.filter (fun y => y ≠ x))
    rw [firstDedup_cons]
    simp only [List.map_cons, List.sum_cons, List.length_cons]
    have hx : (x :: xs).countP (fun z => z = x) = xs.countP (fun z => z = x) + 1 := by
      simp [List.countP_cons]
    have hcongr : (firstDedup (xs.filter (fun y => y ≠ x))).map
          (fun v => (x :: xs).countP (fun z => z = v)) =
        (firstDedup (xs.filter (fun y => y ≠ x))).map
          (fun v => (xs.filter (fun y => y ≠ x)).countP (fun z => z = v)) := by
      apply List.map_congr_left
      intro v hv
      have hvmem : v ∈ xs.filter (fun y => y ≠ x) := mem_firstDedup _ hv
      have hvx : v ≠ x := by
        have := (List.mem_filter.mp hvmem).2
        simpa using this
      have h1 : (x :: xs).countP (fun z => z = v) = xs.countP (fun z => z = v) := by
        simp [List.countP_cons, hvx, Ne.symm hvx]
      have h2 : (xs.filter (fun y => y ≠ x)).countP (fun z => z = v) =
          xs.countP (fun z => z = v) := by
        rw [List.countP_filter]
        apply List.countP_congr
        intro z _
        constructor
        · intro h
          simpa using ((Bool.and_eq_true _ _).mp h).1
        · intro h
          have hz : z = v := by simpa using h
          subst hz
          simp [hvx]
      rw [h1, h2]
    rw [hx, hcongr, key]
    have hpart : (xs.filter (fun y => y ≠ x)).length + xs.countP (fun z => z = x) =
        xs.length := by
      have := length_filter_add_length_filter_neg (fun y => decide (y = x)) xs
      rw [List.countP_eq_length_filter]
      have hfil : xs.filter (fun y => y ≠ x) = xs.filter (fun y => !decide (y = x)) := by
        apply List.filter_congr
        intro z _
        simp
      rw [hfil]
      omega
    omega
termination_by l => l.length
decreasing_by
  simp only [List.length_cons]
  exact Nat.lt_succ_of_le (List.length_filter_le _ _)

/-- The four age filters of `get_age_statistics` partition any list of
rationals: every age falls in exactly one of (-inf,12], (12,19], (19,59],
(59,inf). -/
theorem age_bucket_partition (l : List ℚ) :
    (l.filter (fun a => a ≤ 12)).length +
    (l.filter (fun a => 12 < a ∧ a ≤ 19)).length +
    (l.filter (fun a => 19 < a ∧ a ≤ 59)).length +
    (l.filter (fun a => 59 < a)).length = l.length := by
  induction l with
  | nil => simp
  | cons a t ih =>
    simp only [List.filter_cons, List.length_cons]
    rcases le_or_lt a 12 with h1 | h1
    · have n12 : ¬(12 < a) := by linarith
      have n19 : ¬(19 < a) := by linarith
      have n59 : ¬(59 < a) := by linarith
      simp [h1, n12, n19, n59] at ih ⊢
      omega
    · rcases le_or_lt a 19 with h2 | h2
      · have n1 : ¬(a ≤ 12) := by linarith
        have n19 : ¬(19 < a) := by linarith
        have n59 : ¬(59 < a) := by linarith
        simp [n1, h1, h2, n19, n59] at ih ⊢
        omega
      · rcases le_or_lt a 59 with h3 | h3
        · have n1 : ¬(a ≤ 12) := by linarith
          have n2 : ¬(a ≤ 19) := by linarith
          have p12 : 12 < a := by linarith
          have p19 : 19 < a := by linarith
          have n59 : ¬(59 < a) := by linarith
          simp [n1, n2, p12, p19, h3, n59] at ih ⊢
          omega
        · have n1 : ¬(a ≤ 12) := by linarith
          have n2 : ¬(a ≤ 19) := by linarith
          have n3 : ¬(a ≤ 59) := by linarith
          have p12 : 12 < a := by linarith
          have p19 : 19 < a := by linarith
          simp [n1, n2, n3, p12, p19, h3] at ih ⊢
          omega

/-- When some row maps to `none`, `filterMap` is strictly shorter than the
row list. -/
theorem length_filterMap_lt_of_none {f : α → Option β} :
    (l : List α) → (∃ p ∈ l, f p = none) → (l.filterMap f).length < l.length
  | [], h => by simp at h
  | a :: t, h => by
    rcases h with ⟨p, hp, hnone⟩
    rcases List.mem_cons.mp hp with rfl | hpt
    · rw [List.filterMap_cons, hnone]
      exact Nat.lt_succ_of_le (List.length_filterMap_le f t)
    · have ih := length_filterMap_lt_of_none t ⟨p, hpt, hnone⟩
      rw [List.filterMap_cons]
      cases f a with
      | none => exact Nat.lt_succ_of_lt ih
      | some b => simpa using Nat.succ_lt_succ ih

/-- Summing `count / T * 100` over a list of counts factors through the sum
of the counts. -/
theorem sum_map_count_div (l : List ℕ) (T : ℚ) :
    (l.map (fun n : ℕ => (n : ℚ) / T * 100)).sum = ((l.sum : ℕ) : ℚ) / T * 100 := by
  induction l with
  | nil => simp
  | cons n t ih =>
    simp only [List.map_cons, List.sum_cons, ih]
    push_cast
    ring

/-- `get_basic_stats` on a non-empty dataset, in explicit form. -/
theorem get_basic_stats_eq (d : Dataset) (h : d ≠ []) :
    get_basic_stats d = .stats {
      total_passengers := d.length
      survivors := survivorsCount d
      survival_rate := (survivorsCount d : ℚ) / (d.length : ℚ) * 100
      male_passengers := (d.filter (fun p => p.sex == Sex.male)).length
      female_passengers := (d.filter (fun p => p.sex == Sex.female)).length
      male_percentage :=
        ((d.filter (fun p => p.sex == Sex.male)).length : ℚ) / (d.length : ℚ) * 100
      average_age := meanOpt (knownAges d)
      average_fare := ratMean (d.map (fun p => p.fare))
      classes := sortedClasses d } := by
  rw [get_basic_stats, if_neg (by simp [List.isEmpty_iff, h])]

/-- `get_survival_by_gender` on a dataset containing both sexes, in explicit
form. -/
theorem get_survival_by_gender_eq (d : Dataset) (h : d ≠ [])
    (hm : (d.filter (fun p => p.sex == Sex.male)).isEmpty = false)
    (hf : (d.filter (fun p => p.sex == Sex.female)).isEmpty = false) :
    get_survival_by_gender d = .ok {
      male_survival_rate :=
        rnd3 ((survivorsCount (d.filter (fun p => p.sex == Sex.male)) : ℚ) /
          ((d.filter (fun p => p.sex == Sex.male)).length : ℚ)) * 100
      female_survival_rate :=
        rnd3 ((survivorsCount (d.filter (fun p => p.sex == Sex.female)) : ℚ) /
          ((d.filter (fun p => p.sex == Sex.female)).length : ℚ)) * 100
      male_survivors := survivorsCount (d.filter (fun p => p.sex == Sex.male))
      female_survivors := survivorsCount (d.filter (fun p => p.sex == Sex.female))
      total_male := (d.filter (fun p => p.sex == Sex.male)).length
      total_female := (d.filter (fun p => p.sex == Sex.female)).length } := by
  rw [get_survival_by_gender, if_neg (by simp [List.isEmpty_iff, h])]
  simp only [hm, hf]
  rfl

/-- `get_survival_by_class` on a non-empty dataset, in explicit form. -/
theorem get_survival_by_class_eq (d : Dataset) (h : d ≠ []) :
    get_survival_by_class d = .ok ((sortedClasses d).map (fun c =>
      let grp := d.filter (fun p => p.pclass == c)
      (c, { survival_rate := rnd3 ((survivorsCount grp : ℚ) / (grp.length : ℚ)) * 100
            survivors := survivorsCount grp
            total := grp.length }))) := by
  rw [get_survival_by_class, if_neg (by simp [List.isEmpty_iff, h])]

/-- `get_age_statistics` on a non-empty dataset, in explicit form. -/
theorem get_age_statistics_eq (d : Dataset) (h : d ≠ []) :
    get_age_statistics d = .ok {
      average_age := meanOpt (knownAges d)
      median_age := medianOpt (knownAges d)
      min_age := (knownAges d).min?
      max_age := (knownAges d).max?
      age_var := sampleVarOpt (knownAges d)
      children_0_12 := ((knownAges d).filter (fun a => a ≤ 12)).length
      teens_13_19 := ((knownAges d).filter (fun a => 12 < a ∧ a ≤ 19)).length
      adults_20_59 := ((knownAges d).filter (fun a => 19 < a ∧ a ≤ 59)).length
      seniors_60_plus := ((knownAges d).filter (fun a => 59 < a)).length } := by
  rw [get_age_statistics, if_neg (by simp [List.isEmpty_iff, h])]

/-- `get_embarkation_stats` on a non-empty dataset, in explicit form. -/
theorem get_embarkation_stats_eq (d : Dataset) (h : d ≠ []) :
    get_embarkation_stats d = .ok
      ((insSort (fun a b => b.2 ≤ a.2) ((firstDedup (knownEmbarked d)).map
          (fun c => (c, ((knownEmbarked d).filter (fun x => x == c)).length)))).map
        (fun p => (embarkName p.1,
          { count := p.2, percentage := (p.2 : ℚ) / (d.length : ℚ) * 100 }))) := by
  rw [get_embarkation_stats, if_neg (by simp [List.isEmpty_iff, h])]

/-- Filtering for a value with `==` counts the same as `countP` with the
propositional equality. -/
theorem length_filter_beq [BEq α] [LawfulBEq α] [DecidableEq α] (l : List α) (c : α) :
    (l.filter (fun x => x == c)).length = l.countP (fun x => x = c) := by
  rw [List.countP_eq_length_filter]
  congr 1
  apply List.filter_congr
  intro x _
  by_cases h : x = c <;> simp [h]

/-- The `value_counts`-style per-value counts over `firstDedup` sum to the
list length. -/
theorem sum_counts_firstDedup_beq [BEq α] [LawfulBEq α] [DecidableEq α] (l : List α) :
    ((firstDedup l).map (fun c => (l.filter (fun x => x == c)).length)).sum = l.length := by
  rw [List.map_congr_left (fun c _ => length_filter_beq l c)]
  exact sum_countP_firstDedup l

/-- The male and female filters partition a dataset: `sex` is a two-valued
enum. -/
theorem sex_filter_partition (d : Dataset) :
    (d.filter (fun p => p.sex == Sex.male)).length +
      (d.filter (fun p => p.sex == Sex.female)).length = d.length := by
  induction d with
  | nil => simp
  | cons p t ih =>
    cases hs : p.sex <;> simp [List.filter_cons, hs] <;> omega

/-- Filtering rows on `pclass == c` counts the same as filtering the
projected class list on `== c`. -/
theorem length_filter_pclass (d : Dataset) (c : Nat) :
    (d.filter (fun p => p.pclass == c)).length =
      ((d.map (fun p => p.pclass)).filter (fun x => x == c)).length := by
  rw [← List.countP_eq_length_filter, ← List.countP_eq_length_filter, List.countP_map]
  rfl

/-- The per-class group sizes over the distinct classes sum to the dataset
size. -/
theorem sum_group_lengths (d : Dataset) :
    ((firstDedup (d.map (fun p => p.pclass))).map
      (fun c => (d.filter (fun p => p.pclass == c)).length)).sum = d.length := by
  rw [List.map_congr_left (fun c _ => length_filter_pclass d c)]
  rw [sum_counts_firstDedup_beq (d.map (fun p => p.pclass))]
  exact List.length_map d _

/- ## Claim theorems -/

/-- C1: the `/chat` endpoint rejects a whitespace-only question without any
call to the agent (the result is the same for every agent), but the
rejection reaches the caller as a 500 server error — the handler raises
`HTTPException(400)` inside its own `try`, and the catch-all
`except Exception` re-wraps it as `HTTPException(500)` — contradicting both
the claim and the 400 the code itself requests. -/
theorem c1_chat_empty_question_is_500 (agent other : String → Except String QueryResult) :
    chat agent "   " =
      .error (500, "Error processing question: 400: Question cannot be empty") ∧
    chat agent "   " = chat other "   " :=
  ⟨rfl, rfl⟩

/-- C2 counterexample: on the empty dataset the four statistics functions
other than `get_basic_stats` raise (`Except.error`, the model of a Python
`KeyError`) instead of returning an explicit unavailable result, refuting
the claim that every Statistics Engine function degrades to an
unavailable result on an empty Dataset. -/
theorem c2_counterexample :
    get_survival_by_gender ([] : Dataset) = .error "KeyError: Sex" ∧
    get_survival_by_class ([] : Dataset) = .error "KeyError: Pclass" ∧
    get_age_statistics ([] : Dataset) = .error "KeyError: Age" ∧
    get_embarkation_stats ([] : Dataset) = .error "KeyError: Embarked" :=
  ⟨rfl, rfl, rfl, rfl⟩

/-- C2 amended: only `get_basic_stats` reports the explicit unavailable
result on the empty Dataset; the other four statistics functions raise on
it; and on a non-empty Dataset containing at least one male and one female
passenger all five functions are defined (return a value without
raising). -/
theorem c2_amended (d : Dataset) (hne : d ≠ [])
    (hm : (d.filter (fun p => p.sex == Sex.male)).isEmpty = false)
    (hf : (d.filter (fun p => p.sex == Sex.female)).isEmpty = false) :
    (get_basic_stats [] = .unavailable ∧
      get_survival_by_gender ([] : Dataset) = .error "KeyError: Sex" ∧
      get_survival_by_class ([] : Dataset) = .error "KeyError: Pclass" ∧
      get_age_statistics ([] : Dataset) = .error "KeyError: Age" ∧
      get_embarkation_stats ([] : Dataset) = .error "KeyError: Embarked") ∧
    ((∃ s, get_basic_stats d = .stats s) ∧
      (∃ g, get_survival_by_gender d = .ok g) ∧
      (∃ c, get_survival_by_class d = .ok c) ∧
      (∃ a, get_age_statistics d = .ok a) ∧
      (∃ e, get_embarkation_stats d = .ok e)) :=
  ⟨⟨rfl, rfl, rfl, rfl, rfl⟩,
    ⟨_, get_basic_stats_eq d hne⟩,
    ⟨_, get_survival_by_gender_eq d hne hm hf⟩,
    ⟨_, get_survival_by_class_eq d hne⟩,
    ⟨_, get_age_statistics_eq d hne⟩,
    ⟨_, get_embarkation_stats_eq d hne⟩⟩

/-- C2 witness: the amended statement instantiated at the concrete
four-row dataset. -/
theorem c2_witness :
    (get_basic_stats [] = .unavailable ∧
      get_survival_by_gender ([] : Dataset) = .error "KeyError: Sex" ∧
      get_survival_by_class ([] : Dataset) = .error "KeyError: Pclass" ∧
      get_age_statistics ([] : Dataset) = .error "KeyError: Age" ∧
      get_embarkation_stats ([] : Dataset) = .error "KeyError: Embarked") ∧
    ((∃ s, get_basic_stats dWitness = .stats s) ∧
      (∃ g, get_survival_by_gender dWitness = .ok g) ∧
      (∃ c, get_survival_by_class dWitness = .ok c) ∧
      (∃ a, get_age_statistics dWitness = .ok a) ∧
      (∃ e, get_embarkation_stats dWitness = .ok e)) :=
  c2_amended dWitness (by decide) (by decide) (by decide)

/-- C6: on every non-empty Dataset `basic_stats` reports
`survival_rate = 100 * survivors / total_passengers` exactly (rational
arithmetic), with `survivors` and `total_passengers` the exact integer
counts of survivors and rows. -/
theorem c6_survival_rate_formula (d : Dataset) (h : d ≠ []) :
    ∃ s, get_basic_stats d = .stats s ∧
      s.survival_rate = 100 * (s.survivors : ℚ) / (s.total_passengers : ℚ) ∧
      s.survivors = (d.filter (fun p => p.survived)).length ∧
      s.total_passengers = d.length := by
  refine ⟨_, get_basic_stats_eq d h, ?_, rfl, rfl⟩
  show (survivorsCount d : ℚ) / (d.length : ℚ) * 100 =
    100 * (survivorsCount d : ℚ) / (d.length : ℚ)
  ring

/-- C6 witness: the statement instantiated at the concrete four-row
dataset. -/
theorem c6_witness :
    ∃ s, get_basic_stats dWitness = .stats s ∧
      s.survival_rate = 100 * (s.survivors : ℚ) / (s.total_passengers : ℚ) ∧
      s.survivors = (dWitness.filter (fun p => p.survived)).length ∧
      s.total_passengers = dWitness.length :=
  c6_survival_rate_formula dWitness (by decide)

/-- C9: the chart decision of `_determine_chart_type` does not depend on the
`ai_response` argument — the function lowercases it into a dead local and
never reads it — so any two answer texts give the same decision. -/
theorem c9_chart_ignores_answer_text (d : Dataset) (q r1 r2 : String) :
    determine_chart_type d q r1 = determine_chart_type d q r2 := rfl

/-- C3 counterexample: with a dataset holding only a class-1 passenger and a
hosted call that times out, the deterministic fallback itself raises
(`class_2` is missing from the grouped result), so the caller of
`process_query` observes a raw error rather than a QueryResult, refuting
the claim that the caller never observes a failure. -/
theorem c3_counterexample :
    process_with_ai dOneClass llmFail "class" = .error "KeyError: class_2" := rfl

/-- C3 amended: whenever the AI path's `try` body fails, `_process_with_ai`
returns exactly what `_process_without_ai` produces for the same question —
including propagating the deterministic path's own exception when that path
raises; in particular, whenever the deterministic path yields a
QueryResult, the caller receives exactly that QueryResult and never
observes the AI failure. -/
theorem c3_ai_failure_falls_back (d : Dataset) (llm : LlmCall) (q : String)
    (h : ∃ e, aiTryBody d llm q = .error e) :
    process_with_ai d llm q = process_without_ai d q ∧
    (∀ r, process_without_ai d q = .ok r → process_with_ai d llm q = .ok r) := by
  obtain ⟨e, he⟩ := h
  have hfall : process_with_ai d llm q = process_without_ai d q := by
    rw [process_with_ai, he]
  exact ⟨hfall, fun r hr => hfall.trans hr⟩

/-- C3 witness: the amended statement instantiated at the concrete four-row
dataset, a failing hosted call and the question `hello`. -/
theorem c3_witness :
    process_with_ai dWitness llmFail "hello" = process_without_ai dWitness "hello" ∧
    (∀ r, process_without_ai dWitness "hello" = .ok r →
      process_with_ai dWitness llmFail "hello" = .ok r) :=
  c3_ai_failure_falls_back dWitness llmFail "hello" ⟨"timeout", rfl⟩

/-- C4 counterexample: a passenger aged exactly 60 falls in none of the
ranges the claim states — it is outside (19,59] and outside (60,∞) — so the
claim ranges are not exhaustive and their counts sum to 0 against 1 known
age, while the code's senior bucket (its test is `age > 59`) does count
this passenger. -/
theorem c4_counterexample :
    specAgeBucketSum dSixty = 0 ∧
    (knownAges dSixty).length = 1 ∧
    (get_age_statistics dSixty).map ageBucketSum = .ok 1 :=
  ⟨by decide, by decide, rfl⟩

/-- C4 amended: the four buckets are the inclusive-upper-bound ranges
[0,12], (12,19], (19,59], (59,∞) — the seniors branch tests `age > 59`, not
`age > 60` — and over non-missing, non-negative ages they are mutually
exclusive and exhaustive: each bucket count equals the count of ages in its
range and the four counts sum to the number of known ages. -/
theorem c4_age_buckets (d : Dataset) (hne : d ≠ [])
    (hpos : ∀ a ∈ knownAges d, 0 ≤ a) :
    ∃ s, get_age_statistics d = .ok s ∧
      s.children_0_12 = ((knownAges d).filter (fun a => 0 ≤ a ∧ a ≤ 12)).length ∧
      s.teens_13_19 = ((knownAges d).filter (fun a => 12 < a ∧ a ≤ 19)).length ∧
      s.adults_20_59 = ((knownAges d).filter (fun a => 19 < a ∧ a ≤ 59)).length ∧
      s.seniors_60_plus = ((knownAges d).filter (fun a => 59 < a)).length ∧
      ageBucketSum s = (knownAges d).length := by
  refine ⟨_, get_age_statistics_eq d hne, ?_, rfl, rfl, rfl, ?_⟩
  · show ((knownAges d).filter (fun a => a ≤ 12)).length = _
    congr 1
    apply List.filter_congr
    intro a ha
    have h0 := hpos a ha
    by_cases h : a ≤ 12 <;> simp [h, h0]
  · exact age_bucket_partition (knownAges d)

/-- C4 witness: the amended statement instantiated at the concrete four-row
dataset. -/
theorem c4_witness :
    ∃ s, get_age_statistics dWitness = .ok s ∧
      s.children_0_12 = ((knownAges dWitness).filter (fun a => 0 ≤ a ∧ a ≤ 12)).length ∧
      s.teens_13_19 = ((knownAges dWitness).filter (fun a => 12 < a ∧ a ≤ 19)).length ∧
      s.adults_20_59 = ((knownAges dWitness).filter (fun a => 19 < a ∧ a ≤ 59)).length ∧
      s.seniors_60_plus = ((knownAges dWitness).filter (fun a => 59 < a)).length ∧
      ageBucketSum s = (knownAges dWitness).length :=
  c4_age_buckets dWitness (by decide) (by decide)

/-- Sorting with `insSort` preserves mapped sums. -/
theorem insSort_map_sum {M : Type} [AddCommMonoid M] (le : β → β → Bool)
    (l : List β) (f : β → M) :
    ((insSort le l).map f).sum = (l.map f).sum :=
  ((insSort_perm le l).map f).sum_eq

/-- C5 counterexample: for the one-passenger dataset whose age and
embarkation code are missing, the age-bucket counts sum to 0 (and so do the
embarkation counts), not to the total passenger count 1, refuting the claim
that every grouping dimension's counts sum to the total. -/
theorem c5_counterexample :
    dMissing.length = 1 ∧
    (get_age_statistics dMissing).map ageBucketSum = .ok 0 ∧
    (get_embarkation_stats dMissing).map
      (fun es => (es.map (fun e => e.2.count)).sum) = .ok 0 :=
  ⟨rfl, rfl, rfl⟩

/-- C5 amended: the per-category counts sum to the total passenger count
for the sex and class dimensions; for the age-bucket dimension they sum to
the count of non-missing ages, and for the embarkation dimension to the
count of non-missing embarkation codes (missing values are dropped by
`dropna` / `value_counts`). -/
theorem c5_group_counts (d : Dataset) (hne : d ≠ [])
    (hm : (d.filter (fun p => p.sex == Sex.male)).isEmpty = false)
    (hf : (d.filter (fun p => p.sex == Sex.female)).isEmpty = false) :
    (∃ g, get_survival_by_gender d = .ok g ∧
      g.total_male + g.total_female = d.length) ∧
    (∃ cs, get_survival_by_class d = .ok cs ∧
      (cs.map (fun e => e.2.total)).sum = d.length) ∧
    (∃ s, get_age_statistics d = .ok s ∧ ageBucketSum s = (knownAges d).length) ∧
    (∃ es, get_embarkation_stats d = .ok es ∧
      (es.map (fun e => e.2.count)).sum = (knownEmbarked d).length) := by
  refine ⟨⟨_, get_survival_by_gender_eq d hne hm hf, sex_filter_partition d⟩,
          ⟨_, get_survival_by_class_eq d hne, ?_⟩,
          ⟨_, get_age_statistics_eq d hne, age_bucket_partition (knownAges d)⟩,
          ⟨_, get_embarkation_stats_eq d hne, ?_⟩⟩
  · rw [List.map_map, sortedClasses, insSort_map_sum]
    exact sum_group_lengths d
  · rw [List.map_map, insSort_map_sum, List.map_map]
    exact sum_counts_firstDedup_beq (knownEmbarked d)

/-- C5 witness: the amended statement instantiated at the concrete four-row
dataset. -/
theorem c5_witness :
    (∃ g, get_survival_by_gender dWitness = .ok g ∧
      g.total_male + g.total_female = dWitness.length) ∧
    (∃ cs, get_survival_by_class dWitness = .ok cs ∧
      (cs.map (fun e => e.2.total)).sum = dWitness.length) ∧
    (∃ s, get_age_statistics dWitness = .ok s ∧
      ageBucketSum s = (knownAges dWitness).length) ∧
    (∃ es, get_embarkation_stats dWitness = .ok es ∧
      (es.map (fun e => e.2.count)).sum = (knownEmbarked dWitness).length) :=
  c5_group_counts dWitness (by decide) (by decide) (by decide)

/-- C10: in `get_embarkation_stats` every port's percentage divides the
port's count by the full passenger count, so when at least one passenger
has a missing embarkation value the per-port counts (which exclude the
missing values) sum to strictly fewer than the passengers and the
percentages sum to strictly less than 100. -/
theorem c10_embark_percentages (d : Dataset)
    (h : ∃ p ∈ d, p.embarked = none) :
    ∃ es, get_embarkation_stats d = .ok es ∧
      (∀ e ∈ es, e.2.percentage = (e.2.count : ℚ) / (d.length : ℚ) * 100) ∧
      (es.map (fun e => e.2.count)).sum = (knownEmbarked d).length ∧
      (es.map (fun e => e.2.percentage)).sum < 100 := by
  have hne : d ≠ [] := by
    obtain ⟨p, hp, -⟩ := h
    exact List.ne_nil_of_mem hp
  refine ⟨_, get_embarkation_stats_eq d hne, ?_, ?_, ?_⟩
  · intro e he
    obtain ⟨q, hq, rfl⟩ := List.mem_map.mp he
    rfl
  · rw [List.map_map, insSort_map_sum, List.map_map]
    exact sum_counts_firstDedup_beq (knownEmbarked d)
  · rw [List.map_map, insSort_map_sum, List.map_map]
    have hK : (knownEmbarked d).length < d.length :=
      length_filterMap_lt_of_none d h
    have hT : (0 : ℚ) < (d.length : ℚ) := by
      have : 0 < d.length := List.length_pos.mpr hne
      exact_mod_cast this
    have hlt : ((knownEmbarked d).length : ℚ) / (d.length : ℚ) < 1 :=
      (div_lt_one hT).mpr (by exact_mod_cast hK)
    have key : (((firstDedup (knownEmbarked d)).map
        (fun c => ((knownEmbarked d).filter (fun x => x == c)).length)).map
        (fun n : ℕ => (n : ℚ) / (d.length : ℚ) * 100)).sum < 100 := by
      rw [sum_map_count_div, sum_counts_firstDedup_beq (knownEmbarked d)]
      linarith
    rw [List.map_map] at key
    exact key

/-- C10 witness: the statement instantiated at the concrete four-row
dataset (its third row has no embarkation code). -/
theorem c10_witness :
    ∃ es, get_embarkation_stats dWitness = .ok es ∧
      (∀ e ∈ es, e.2.percentage = (e.2.count : ℚ) / (dWitness.length : ℚ) * 100) ∧
      (es.map (fun e => e.2.count)).sum = (knownEmbarked dWitness).length ∧
      (es.map (fun e => e.2.percentage)).sum < 100 :=
  c10_embark_percentages dWitness (by decide)

/-- C7 counterexample: for `how many survived` the first matching topic
keyword set is the counts set (`how many`), yet — because the counts branch
also requires `passenger` — the router answers from the default branch, not
the counts branch, refuting the claim that the first matching topic branch
produces the answer. -/
theorem c7_counterexample :
    firstMatchingTopic "how many survived" = some "counts" ∧
    answer_question dWitness "how many survived" =
      .ok ⟨.defaultCapabilities, .basic (get_basic_stats dWitness)⟩ :=
  ⟨rfl, rfl⟩

/-- C7 amended: on a well-formed dataset (non-empty, both sexes present)
the router equals an ordered guard/handler table evaluated in the
precedence counts → gender → age → fare → embarkation → class → default, in
which a topic fires only when its full condition holds — counts needs a
counts keyword and `passenger`; gender needs a gender keyword and either
(`percentage` with `male`) or `survival`; age needs an age keyword and
`average`; fare, embarkation and class fire on their keyword sets alone —
a topic whose keywords match but whose inner condition fails falls through
to the later topics, and the default handler returns the capability
description together with `basic_stats`. -/
theorem c7_router_precedence (d : Dataset) (hne : d ≠ [])
    (hm : (d.filter (fun p => p.sex == Sex.male)).isEmpty = false)
    (hf : (d.filter (fun p => p.sex == Sex.female)).isEmpty = false)
    (q : String) :
    answer_question d q = routerSpec d q := by
  have hg := get_survival_by_gender_eq d hne hm hf
  have ha := get_age_statistics_eq d hne
  by_cases h1 : (containsAny (strLower q) countKeywords &&
      pyContains (strLower q) "passenger") = true <;>
  by_cases h2 : containsAny (strLower q) genderKeywords = true <;>
  by_cases h3 : (pyContains (strLower q) "percentage" &&
      pyContains (strLower q) "male") = true <;>
  by_cases h4 : pyContains (strLower q) "survival" = true <;>
  by_cases h5 : containsAny (strLower q) ageKeywords = true <;>
  by_cases h6 : pyContains (strLower q) "average" = true <;>
    simp [answer_question, routerSpec, aq_counts, aq_gender, aq_age, aq_fare,
      aq_embark, aq_class, aq_default, countsGuard, genderGuard, ageGuard,
      hg, ha, h1, h2, h3, h4, h5, h6]

/-- C7 witness: the amended router equality instantiated at the concrete
four-row dataset and the question `how many survived`. -/
theorem c7_witness :
    answer_question dWitness "how many survived" =
      routerSpec dWitness "how many survived" :=
  c7_router_precedence dWitness (by decide) (by decide) (by decide)
    "how many survived"

/-- The age-histogram renderer succeeds on a non-empty dataset. -/
theorem create_age_histogram_eq (d : Dataset) (hne : d ≠ []) :
    create_age_histogram_plotly d = .ok (.ageHist (knownAges d)) := by
  rw [create_age_histogram_plotly, if_neg (by simp [List.isEmpty_iff, hne])]

/-- The class-survival renderer succeeds on a non-empty dataset. -/
theorem create_class_chart_eq (d : Dataset) (hne : d ≠ []) :
    create_survival_by_class_chart d = .ok (.classChart ((sortedClasses d).map
      (fun c =>
        let grp := d.filter (fun p => p.pclass == c)
        (survivorsCount grp : ℚ) / (grp.length : ℚ) * 100))) := by
  rw [create_survival_by_class_chart, if_neg (by simp [List.isEmpty_iff, hne])]

/-- The gender-survival renderer succeeds when both sexes are present. -/
theorem create_gender_chart_eq (d : Dataset) (hne : d ≠ [])
    (hm : (d.filter (fun p => p.sex == Sex.male)).isEmpty = false)
    (hf : (d.filter (fun p => p.sex == Sex.female)).isEmpty = false) :
    create_gender_survival_chart d = .ok (.genderChart
      ((survivorsCount (d.filter (fun p => p.sex == Sex.female)) : ℚ) /
        ((d.filter (fun p => p.sex == Sex.female)).length : ℚ) * 100)
      ((survivorsCount (d.filter (fun p => p.sex == Sex.male)) : ℚ) /
        ((d.filter (fun p => p.sex == Sex.male)).length : ℚ) * 100)) := by
  rw [create_gender_survival_chart, if_neg (by simp [List.isEmpty_iff, hne])]
  simp [hm, hf]

/-- The auto-generation level of the chart selector emits exactly the kinds
of the amended level-2 specification. -/
theorem determine_chart_auto_kinds (d : Dataset) (hne : d ≠ [])
    (hm : (d.filter (fun p => p.sex == Sex.male)).isEmpty = false)
    (hf : (d.filter (fun p => p.sex == Sex.female)).isEmpty = false)
    (ql : String) :
    (determine_chart_auto d ql).map (fun o => o.map Prod.snd) =
      .ok (selectChartAuto ql) := by
  have hag := create_age_histogram_eq d hne
  have hcc := create_class_chart_eq d hne
  have hgc := create_gender_chart_eq d hne hm hf
  by_cases hA : (containsAny ql ["age"] && pyContains ql "distribution") = true <;>
  by_cases hB : (pyContains ql "class" && containsAny ql ["survival", "survive"]) = true <;>
  by_cases hC : (containsAny ql ["gender", "male", "female"] &&
      pyContains ql "survival") = true <;>
    simp [determine_chart_auto, selectChartAuto, hag, hcc, hgc, hA, hB, hC,
      Except.map]

/-- C8 counterexample: for `did third class survive` the code emits the
`survival_by_class` kind (its class intent check also accepts the bare word
`survive`), while the selector as the claim words it — intent word
`survival` — emits none, refuting the claim's enumeration of the intent
pairs and its `otherwise none` clause. -/
theorem c8_counterexample :
    (determine_chart_type dWitness "did third class survive" "").map
      (fun o => o.map Prod.snd) = .ok (some "survival_by_class") ∧
    selectChartKindClaim "did third class survive" = none :=
  ⟨rfl, rfl⟩

/-- C8 amended: on a well-formed dataset (non-empty, both sexes present) the
chart selector applies the claimed two-level priority — visualization verb
plus topic keyword first, then topic keyword plus intent word, age before
class/survival before gender at each level, first match wins, none
otherwise — with the one correction that the class-level intent word may be
`survival` or `survive`; the emitted kind is a function of the question text
alone, hence deterministic. -/
theorem c8_chart_selector (d : Dataset) (hne : d ≠ [])
    (hm : (d.filter (fun p => p.sex == Sex.male)).isEmpty = false)
    (hf : (d.filter (fun p => p.sex == Sex.female)).isEmpty = false)
    (q r : String) :
    (determine_chart_type d q r).map (fun o => o.map Prod.snd) =
      .ok (selectChartKindAmended q) := by
  have hag := create_age_histogram_eq d hne
  have hcc := create_class_chart_eq d hne
  have hgc := create_gender_chart_eq d hne hm hf
  have hauto := determine_chart_auto_kinds d hne hm hf (strLower q)
  simp only [Except.map] at hauto
  by_cases hv : containsAny (strLower q) vizKeywords = true <;>
  by_cases h1 : containsAny (strLower q) ["age"] = true <;>
  by_cases h2 : containsAny (strLower q) ["class", "survival"] = true <;>
  by_cases h3 : containsAny (strLower q) ["gender", "male", "female"] = true <;>
    simp [determine_chart_type, selectChartKindAmended, hv, h1, h2, h3,
      hag, hcc, hgc, hauto, Except.map]

/-- C8 witness: the amended selector equality instantiated at the concrete
four-row dataset and the question `show age chart`. -/
theorem c8_witness :
    (determine_chart_type dWitness "show age chart" "").map
      (fun o => o.map Prod.snd) = .ok (selectChartKindAmended "show age chart") :=
  c8_chart_selector dWitness (by decide) (by decide) (by decide)
    "show age chart" ""
